import Mathlib

/-!
Shallow embedding of the DTMC-marketplace/governance repository's
EU AI Act assessment engine (`governance/views.py`), the dashboard
aggregation use case (`application/use_cases/get_dashboard_data.py`)
and the dependency-injection container
(`presentation/dependency_injection.py`), together with theorems about
the claims on those components.

Modelling conventions:
* Python dicts holding form answers become Lean structures whose fields
  carry the same names and the same Python defaults (`.get(key, default)`).
* A profile field that Python reads with `.get(k, [])` followed by an
  `isinstance(..., list)` guard is modelled by `PyListField`: the value
  may be absent, a non-list value, or a list of strings; the first two
  normalise to `[]` exactly as the Python code does.
* An `Option` of a state structure models the corresponding state dict,
  with `none` standing for a dict that is absent or empty (both are falsy
  in Python and both make every `.get` return its default).
* `block1_state.clear()` under `reset_state=True` is modelled by using
  the default state in that case (the clear happens before any read).
-/

namespace Governance

/-- A Python value read with `profile_data.get(key, [])` and then
normalised with an `isinstance(..., list)` check: absent keys and
non-list values both become the empty list. -/
inductive PyListField where
  | absent
  | notAList (raw : String)
  | ofList (xs : List String)
deriving Repr, DecidableEq

def PyListField.toList : PyListField → List String
  | .absent => []
  | .notAList _ => []
  | .ofList xs => xs

/-- `intended_purpose` sub-dict of the profile form data. -/
structure IntendedPurpose where
  sector_domain : PyListField := .absent
  safety_component : String := ""
  third_party_conformity : String := ""
deriving Repr, DecidableEq

/-- The profile form data fields read by the four block evaluators. -/
structure Profile where
  capability_practices : PyListField := .absent
  intended_purpose : IntendedPurpose := {}
  interacts_persons : String := ""
  synthetic_content : PyListField := .absent
  deployment_context : String := ""
  affected_outputs : PyListField := .absent
  gpai_integration : String := ""
deriving Repr, DecidableEq

/-- Per-practice evidence dict inside `exception_evidence_map`. -/
structure EvidenceRec where
  link : String := ""
  files : List String := []
  explanation : String := ""
deriving Repr, DecidableEq

/-- `block1_state` dict (defaults as initialised by
`api_update_block1_state`). -/
structure Block1State where
  prohibited_confirmed : Bool := false
  claiming_exception : String := ""
  exception_qualifies : String := ""
  exception_qualifies_map : List (String × String) := []
  exception_evidence_map : List (String × EvidenceRec) := []
  exception_evidence_uploaded : Bool := false
  exception_evidence_saved_link : String := ""
  no_exception_confirmed : Bool := false
  exception_conditions : List String := []
  exception_explanation : String := ""
  exception_evidence_files : List String := []
deriving Repr, DecidableEq

/-- `block2_state` dict. -/
structure Block2State where
  high_risk_confirmed : Bool := false
  material_influence : String := ""
  narrow_tasks : List String := []
  profiling : String := ""
  exemption_evidence_uploaded : Bool := false
  exemption_evidence_saved_link : String := ""
deriving Repr, DecidableEq

/-- `block3_state` dict. -/
structure Block3State where
  transparency_confirmed : Bool := false
  exception_options : List String := []
  transparency_evidence_uploaded : Bool := false
  transparency_evidence_saved_link : String := ""
deriving Repr, DecidableEq

/-- `block4_state` dict. -/
structure Block4State where
  gpai_confirmed : Bool := false
  gpai_provider_answer : String := ""
deriving Repr, DecidableEq

/-- Result dict of `get_block1_status` (status, selected practices and
the `details.reason` field; the derived `practices_info` map and extra
detail booleans are presentation data recomputable from these). -/
structure Block1Result where
  status : String
  selected_practices : List String
  reason : String
deriving Repr, DecidableEq

/-- Result dict of `get_block2_status` / `get_block3_status` /
`get_block4_status` (status and `details.reason`). -/
structure BlockResult where
  status : String
  reason : String
deriving Repr, DecidableEq

/-- Entry of the `prohibited_practices_map` literal in
`get_block1_status`. -/
structure PracticeInfo where
  label : String
  article : String
  has_exception : Bool
  exception_condition : Option String
deriving Repr, DecidableEq

/-- The `prohibited_practices_map` dict literal of `get_block1_status`
(Art. 5 mapping of the selectable capability practices). -/
def prohibited_practices_map : List (String × PracticeInfo) :=
  [("Subliminal / manipulative / deceptive techniques that materially distort behaviour and are likely to cause significant harm",
    { label := "Subliminal/manipulative/deceptive techniques", article := "5(1)(a)",
      has_exception := false, exception_condition := none }),
   ("Exploitation of vulnerabilities (age, disability, or social / economic situation) to distort behaviour likely causing significant harm",
    { label := "Exploitation of vulnerabilities", article := "5(1)(b)",
      has_exception := false, exception_condition := none }),
   ("Social scoring leading to detrimental / unfavourable treatment (esp. unjustified / disproportionate)",
    { label := "Social scoring", article := "5(1)(c)",
      has_exception := false, exception_condition := none }),
   ("Criminal offence risk assessment / prediction based solely on profiling or personality traits (individual predictive policing)",
    { label := "Criminal offence risk assessment", article := "5(1)(d)",
      has_exception := true,
      exception_condition := some "AI system is used to support a human assessment based on objective and verifiable facts directly linked to criminal activity (not solely profiling). (Art.5(1)(d))" }),
   ("Untargeted scraping of facial images from the internet or CCTV to build / expand facial recognition databases",
    { label := "Untargeted facial image scraping", article := "5(1)(e)",
      has_exception := false, exception_condition := none }),
   ("Emotion recognition in the workplace or in education settings",
    { label := "Emotion recognition in workplace/education", article := "5(1)(f)",
      has_exception := true,
      exception_condition := some "AI system is for medical or safety reasons. (Art.5(1)(f))" }),
   ("Biometric categorisation that infers or predicts sensitive traits (e.g., race, political opinions, religion, trade union membership, sexual orientation)",
    { label := "Biometric categorisation (sensitive traits)", article := "5(1)(g)",
      has_exception := true,
      exception_condition := some "AI system is for labelling or filtering of lawfully acquired biometric datasets, such as images, based on biometric data or categorizing of biometric data in the area of law enforcement. (Art.5(1)(g))" }),
   ("Real-time remote biometric identification (RBI) in publicly accessible spaces for law enforcement purposes",
    { label := "Real-time remote biometric identification (RBI)", article := "5(1)(h)",
      has_exception := true,
      exception_condition := some "Only if strictly necessary for one of the listed objectives (victims / imminent serious threat / serious crime suspect) and with safeguards + authorisation requirements (Art. 5(2)-(7))." })]

/-- `prohibited_practices_map.get(p, {}).get('has_exception', False)`. -/
def practiceHasException (p : String) : Bool :=
  ((prohibited_practices_map.lookup p).map PracticeInfo.has_exception).getD false

/-- `get_block1_status(profile_data, block1_state, reset_state)`:
Block 1 prohibited-practice screening. -/
def get_block1_status (profile_data : Profile) (block1_state : Option Block1State)
    (reset_state : Bool) : Block1Result :=
  let capability_practices : List String := profile_data.capability_practices.toList
  let st : Block1State := if reset_state then {} else block1_state.getD {}
  if capability_practices.length == 0 then
    { status := "Not assessed", selected_practices := [],
      reason := "No capabilities selected" }
  else if capability_practices.contains "None of the above" && capability_practices.length == 1 then
    { status := "PASS", selected_practices := [],
      reason := "None of the above selected" }
  else
    let selected_practices := capability_practices.filter (fun p => p != "None of the above")
    if selected_practices.isEmpty then
      { status := "PASS", selected_practices := [],
        reason := "No prohibited practices selected" }
    else if !st.prohibited_confirmed then
      { status := "Triggered", selected_practices,
        reason := "Prohibited practices detected, awaiting confirmation" }
    else
      let has_no_exception_practice := selected_practices.any (fun p => !practiceHasException p)
      let claiming_exception := st.claiming_exception
      if has_no_exception_practice || claiming_exception == "No" then
        { status := "Prohibited", selected_practices,
          reason := if has_no_exception_practice then
              "No exception available for one or more selected practices"
            else "User declined exception" }
      else if claiming_exception == "" then
        { status := "Triggered", selected_practices,
          reason := "Awaiting exception claim decision" }
      else
        let qualifies_map := st.exception_qualifies_map
        let practices_with_exception := selected_practices.filter (fun p => practiceHasException p)
        let all_answered := practices_with_exception.all (fun p => (qualifies_map.lookup p).isSome)
        if !all_answered then
          { status := "Triggered", selected_practices,
            reason := "Awaiting answers for all exception claims" }
        else
          let results := practices_with_exception.map (fun p => qualifies_map.lookup p)
          if results.contains (some "No") then
            { status := "Prohibited", selected_practices,
              reason := "One or more exception claims were denied (answered \"No\")" }
          else if results.contains (some "Not sure") then
            { status := "Needs Review", selected_practices,
              reason := "Uncertain about at least one exception qualification" }
          else
            let evidence_map := st.exception_evidence_map
            let all_evidence_provided := practices_with_exception.all (fun p =>
              let ev : EvidenceRec := (evidence_map.lookup p).getD {}
              ev.link != "" || !ev.files.isEmpty || ev.explanation != "")
            if all_evidence_provided then
              { status := "Exception claimed", selected_practices,
                reason := "Evidence provided for all exception claims" }
            else
              { status := "Needs Review", selected_practices,
                reason := "Awaiting evidence for one or more exception claims" }

/-- `ai_detects_prohibited_practice()`: placeholder, always `False` in
the current code. -/
def ai_detects_prohibited_practice : Bool := false

/-- `ai_detects_high_risk()`: placeholder, always `False` in the current
code. -/
def ai_detects_high_risk : Bool := false

/-- Whether `block1_result` is a dict whose status is `'Prohibited'`
(the check shared by blocks 2, 3 and 4). -/
def block1Prohibited : Option Block1Result → Bool
  | none => false
  | some r => r.status == "Prohibited"

/-- `get_block2_status(profile_data, block1_result, block2_state)`:
Block 2 high-risk classification. -/
def get_block2_status (profile_data : Profile) (block1_result : Option Block1Result)
    (block2_state : Option Block2State) : BlockResult :=
  let st : Block2State := block2_state.getD {}
  let ip := profile_data.intended_purpose
  let sector_domain : List String := ip.sector_domain.toList
  let safety_component := ip.safety_component
  let third_party_conformity := ip.third_party_conformity
  if ai_detects_high_risk then
    if st.high_risk_confirmed then
      { status := "High-risk", reason := "AI detected high-risk classification, user confirmed" }
    else
      { status := "Triggered", reason := "AI detected high-risk classification" }
  else if block1Prohibited block1_result then
    if st.high_risk_confirmed then
      { status := "High-risk", reason := "Block 1 Prohibited, user confirmed high-risk" }
    else
      { status := "Triggered", reason := "Block 1 Prohibited – high-risk trigger; confirm or edit profile" }
  else
    let has_sector := !sector_domain.isEmpty
    let has_safety := safety_component != ""
    if !has_sector && !has_safety then
      { status := "Not assessed", reason := "Section 4 not answered (Q2 Sector, Q3 Safety)" }
    else if safety_component == "Yes" && third_party_conformity == "" then
      { status := "Not assessed", reason := "Safety component Yes but third-party conformity not answered" }
    else
      let condition1 := safety_component == "Yes" && third_party_conformity == "Yes"
      let condition2 := sector_domain.any (fun s =>
        !(s == "Other / not listed" || s == "Other / not listed:" || s == ""))
      if !condition1 && !condition2 then
        { status := "De-activated", reason := "No high-risk conditions met" }
      else if !st.high_risk_confirmed then
        { status := "Triggered", reason := "High-risk conditions met, awaiting confirmation" }
      else if condition1 && !condition2 then
        { status := "High-risk", reason := "Safety component + third-party conformity (Condition 1 only)" }
      else
        let material_influence := st.material_influence
        let narrow_tasks := st.narrow_tasks
        let profiling := st.profiling
        let exemption_evidence := st.exemption_evidence_uploaded
          || st.exemption_evidence_saved_link.trim != ""
        if material_influence == "Not sure" then
          { status := "Needs Review", reason := "Annex III Q1: Not sure – needs review" }
        else if material_influence == "Yes" then
          { status := "Not high-risk", reason := "Annex III Q1: Material influence Yes → Not high-risk (per flowchart)" }
        else if material_influence != "No" then
          { status := "Triggered", reason := "Annex III: awaiting Q1 (Material influence)" }
        else
          let none_of_above := narrow_tasks.contains "None of above"
          let specific_tasks := narrow_tasks.filter (fun t =>
            t != "" && t.trim != "" && t != "None of above")
          if specific_tasks.isEmpty && !none_of_above then
            { status := "Triggered", reason := "Annex III: awaiting Q2 (Task type selection)" }
          else if none_of_above then
            { status := "Needs Review", reason := "Annex III Q2: None of above → Needs review (per flowchart)" }
          else if profiling == "Unknown" then
            { status := "Needs Review", reason := "Annex III Q3: Profiling Unknown → Needs review" }
          else if profiling == "Yes" then
            { status := "High-risk", reason := "Annex III Q3: Profiling Yes → High-risk" }
          else if profiling != "No" then
            { status := "Triggered", reason := "Annex III: awaiting Q3 (Profiling)" }
          else if exemption_evidence then
            { status := "Not high-risk", reason := "Annex III: Profiling No + evidence provided → Not high-risk" }
          else
            { status := "High-risk", reason := "Annex III: Profiling No but no exemption evidence yet" }

/-- Character-list prefix test used to model Python's substring
operator `in` on strings. -/
def prefChars : List Char → List Char → Bool
  | [], _ => true
  | _ :: _, [] => false
  | a :: as, b :: bs => a == b && prefChars as bs

/-- Character-list substring test: `needle` occurs somewhere in the
second list. -/
def subChars (needle : List Char) : List Char → Bool
  | [] => needle.isEmpty
  | c :: rest => prefChars needle (c :: rest) || subChars needle rest

/-- Python's `needle in hay` on strings. -/
def strHas (hay needle : String) : Bool := subChars needle.toList hay.toList

/-- `group1_2_3_options` literal in `get_block3_status`. -/
def group1_2_3_options : List String :=
  ["Permitted by law to detect, prevent or investigate criminal offences, as stated in Art. 50(3)",
   "None of the above (no exception for biometric/emotion recognition cases)"]

/-- `group4_options` literal in `get_block3_status`. -/
def group4_options : List String :=
  ["\"Obvious to the user\" exception (no notice needed), as stated in Art. 50(1)",
   "Authorised by law to detect, prevent, investigate or prosecute criminal offences, as stated in Art. 50(1)",
   "None of the above (no exception for direct interaction case)"]

/-- `group5_options` literal in `get_block3_status`. -/
def group5_options : List String :=
  ["Deepfake labelling exception (e.g., artistic / satire / fiction), as stated in Art. 50(4)",
   "None of the above (no exception for synthetic content case)"]

/-- `group6_options` literal in `get_block3_status`. -/
def group6_options : List String :=
  ["Authorised by law to detect, prevent, investigate or prosecute criminal offences, as stated in Art. 50(4)",
   "Human review is in place or a natural or legal person holds editorial responsibility for the publication of the content, as stated in Art. 50(4)",
   "None of the above (no exception for citizens/public-facing case)"]

/-- `get_block3_status(profile_data, block1_result, block3_state)`:
Block 3 transparency obligation. -/
def get_block3_status (profile_data : Profile) (block1_result : Option Block1Result)
    (block3_state : Option Block3State) : BlockResult :=
  let st : Block3State := block3_state.getD {}
  if block1Prohibited block1_result then
    { status := "De-activated",
      reason := "Block 1 Prohibited - transparency obligation assessment not applicable" }
  else
    let capability_practices : List String := profile_data.capability_practices.toList
    let interacts_persons := profile_data.interacts_persons
    let synthetic_content : List String := profile_data.synthetic_content.toList
    let deployment_context := profile_data.deployment_context
    let affected_outputs : List String := profile_data.affected_outputs.toList
    if capability_practices.length == 0 then
      { status := "Not assessed", reason := "Capabilities not answered (Section 7, Q1)" }
    else
      let case1 := capability_practices.any (fun p => strHas p "Biometric identification and categorisation")
      let case2 := capability_practices.any (fun p => strHas p "Emotion recognition in the workplace or in education settings")
      let case3 := capability_practices.any (fun p => strHas p "Biometric categorisation that infers or predicts sensitive traits")
      let case4 := interacts_persons == "Yes"
      let case5 := !synthetic_content.isEmpty && !synthetic_content.contains "No"
      let case6 := affected_outputs.contains "Citizens / residents"
        || deployment_context == "General public / consumer-facing"
      let has_triggers := case1 || case2 || case3 || case4 || case5 || case6
      let has_unknowns := interacts_persons == "Unknown"
      if has_unknowns && has_triggers then
        { status := "Not assessed",
          reason := "Triggers detected but questions not all answered (Unknown values)" }
      else if !has_triggers then
        { status := "Not Applicable", reason := "No transparency triggers detected" }
      else if !st.transparency_confirmed then
        if has_unknowns then
          { status := "Needs Review", reason := "Triggers detected but Unknown values require review" }
        else
          { status := "Triggered", reason := "Transparency triggers detected, awaiting confirmation" }
      else
        let exception_options := st.exception_options
        let has_no_exception := exception_options.any (fun opt => strHas opt "None of the above")
        if has_no_exception then
          { status := "Applies",
            reason := "\"None of the above\" selected for at least one case group - transparency obligations apply" }
        else
          let groupOk := fun (opts : List String) =>
            exception_options.any (fun opt => opts.contains opt && !strHas opt "None of the above")
          let has_exception_for_all :=
            (!(case1 || case2 || case3) || groupOk group1_2_3_options)
            && (!case4 || groupOk group4_options)
            && (!case5 || groupOk group5_options)
            && (!case6 || groupOk group6_options)
          if !has_exception_for_all then
            { status := "Needs Review",
              reason := "Incomplete exception selections - not all case groups have valid exceptions" }
          else
            let evidence_provided := st.transparency_evidence_uploaded
              || st.transparency_evidence_saved_link.trim != ""
            if evidence_provided then
              { status := "Not Applicable",
                reason := "Valid exceptions for all groups with evidence provided - transparency obligations do not apply" }
            else
              { status := "Needs Review",
                reason := "Valid exceptions for all groups but evidence not provided - needs review" }

/-- `get_block4_status(profile_data, block1_result, block4_state)`:
Block 4 GPAI obligation. -/
def get_block4_status (profile_data : Profile) (block1_result : Option Block1Result)
    (block4_state : Option Block4State) : BlockResult :=
  let st : Block4State := block4_state.getD {}
  if block1Prohibited block1_result then
    { status := "De-activated",
      reason := "Block 1 Prohibited - GPAI obligation assessment not applicable" }
  else
    let gpai_integration := profile_data.gpai_integration
    if gpai_integration == "" then
      { status := "Not assessed", reason := "GPAI integration question not answered (Section 8, Q2)" }
    else if gpai_integration == "No" then
      { status := "Needs Review", reason := "GPAI integration = No - needs review (per flowchart)" }
    else if gpai_integration == "Unknown" then
      if !st.gpai_confirmed then
        { status := "Triggered", reason := "GPAI integration = Unknown - triggered, awaiting confirmation" }
      else
        { status := "Needs Review", reason := "GPAI integration = Unknown - requires review" }
    else if gpai_integration == "Yes" then
      if !st.gpai_confirmed then
        { status := "Triggered", reason := "GPAI integration = Yes - awaiting confirmation" }
      else
        let gpai_provider_answer := st.gpai_provider_answer
        if gpai_provider_answer == "" then
          { status := "Needs Review", reason := "GPAI integration confirmed but provider question not answered" }
        else if gpai_provider_answer == "No" then
          { status := "Not Applicable", reason := "GPAI integration = Yes but not a provider - Chapter V does not apply" }
        else if gpai_provider_answer == "Not sure" then
          { status := "Needs Review", reason := "GPAI provider status uncertain - requires review" }
        else if gpai_provider_answer == "Yes" then
          { status := "Applies", reason := "GPAI provider - Chapter V obligations apply" }
        else
          { status := "Not assessed", reason := "GPAI integration status unclear" }
    else
      { status := "Not assessed", reason := "GPAI integration status unclear" }

/-- The `assessment_state` dict passed into `run_assessment_logic`:
the four per-block state dicts (`none` = absent or empty). -/
structure AssessmentState where
  block1_state : Option Block1State := none
  block2_state : Option Block2State := none
  block3_state : Option Block3State := none
  block4_state : Option Block4State := none
deriving Repr, DecidableEq

/-- The dict returned by `run_assessment_logic`: the four block results
plus the preserved per-block state keys (present only when the state
dict is truthy after the run). -/
structure AssessmentResults where
  block1 : Block1Result
  block2 : BlockResult
  block3 : BlockResult
  block4 : BlockResult
  block1_state : Option Block1State := none
  block2_state : Option Block2State := none
  block3_state : Option Block3State := none
  block4_state : Option Block4State := none
deriving Repr, DecidableEq

/-- `run_assessment_logic(profile_data, assessment_state, reset_state)`.
When `reset_state` is true, `get_block1_status` clears `block1_state`
in place, so the cleared (empty, falsy) dict is not echoed back. -/
def run_assessment_logic (profile_data : Profile) (assessment_state : Option AssessmentState)
    (reset_state : Bool) : AssessmentResults :=
  let st : AssessmentState := assessment_state.getD {}
  let block1_state := st.block1_state
  let block2_state := st.block2_state
  let block1_result := get_block1_status profile_data block1_state reset_state
  let block3_state := st.block3_state
  let block4_state := st.block4_state
  { block1 := block1_result
    block2 := get_block2_status profile_data (some block1_result) block2_state
    block3 := get_block3_status profile_data (some block1_result) block3_state
    block4 := get_block4_status profile_data (some block1_result) block4_state
    block1_state := if reset_state then none else block1_state
    block2_state := block2_state
    block3_state := block3_state
    block4_state := block4_state }

/-- Lookup of the four block keys of the returned assessment dict,
each holding a sub-dict with a `status` field. -/
def AssessmentResults.statusOf (r : AssessmentResults) : String → Option String
  | "block1" => some r.block1.status
  | "block2" => some r.block2.status
  | "block3" => some r.block3.status
  | "block4" => some r.block4.status
  | _ => none

/-- The `assessment` dict stored on an agent record: block results plus
per-block state keys. -/
structure StoredAssessment where
  block1 : Option Block1Result := none
  block2 : Option BlockResult := none
  block3 : Option BlockResult := none
  block4 : Option BlockResult := none
  block1_state : Option Block1State := none
  block2_state : Option Block2State := none
  block3_state : Option Block3State := none
  block4_state : Option Block4State := none
deriving Repr, DecidableEq

/-- Projection of a stored assessment dict to the state keys read by
`run_assessment_logic` via `.get('blockN_state', {})`. -/
def StoredAssessment.toState (a : StoredAssessment) : AssessmentState :=
  { block1_state := a.block1_state, block2_state := a.block2_state,
    block3_state := a.block3_state, block4_state := a.block4_state }

/-- An agent record of `agents.json` (the fields
`api_update_block1_state` touches). Ids are compared as strings
(`str(a.get('id')) == str(agent_id)`). -/
structure AgentRec where
  id : String
  profile : Option Profile := none
  assessment : Option StoredAssessment := none
deriving Repr, DecidableEq

/-- The JSON body accepted by `api_update_block1_state`: each key is
applied only when present. -/
structure Block1StateUpdate where
  prohibited_confirmed : Option Bool := none
  claiming_exception : Option String := none
  exception_qualifies : Option String := none
  exception_qualifies_map : Option (List (String × String)) := none
  exception_evidence_map : Option (List (String × EvidenceRec)) := none
  exception_evidence_uploaded : Option Bool := none
  exception_evidence_saved_link : Option String := none
  no_exception_confirmed : Option Bool := none
  exception_conditions : Option (List String) := none
  exception_explanation : Option String := none
  exception_evidence_files : Option (List String) := none
deriving Repr, DecidableEq

/-- The key-by-key update of `block1_state` performed by
`api_update_block1_state` on the parsed body. -/
def applyBlock1Update (st : Block1State) (d : Block1StateUpdate) : Block1State :=
  { prohibited_confirmed := d.prohibited_confirmed.getD st.prohibited_confirmed
    claiming_exception := d.claiming_exception.getD st.claiming_exception
    exception_qualifies := d.exception_qualifies.getD st.exception_qualifies
    exception_qualifies_map := d.exception_qualifies_map.getD st.exception_qualifies_map
    exception_evidence_map := d.exception_evidence_map.getD st.exception_evidence_map
    exception_evidence_uploaded := d.exception_evidence_uploaded.getD st.exception_evidence_uploaded
    exception_evidence_saved_link := d.exception_evidence_saved_link.getD st.exception_evidence_saved_link
    no_exception_confirmed := d.no_exception_confirmed.getD st.no_exception_confirmed
    exception_conditions := d.exception_conditions.getD st.exception_conditions
    exception_explanation := d.exception_explanation.getD st.exception_explanation
    exception_evidence_files := d.exception_evidence_files.getD st.exception_evidence_files }

/-- A `JsonResponse` as produced by this endpoint (HTTP status plus the
`success`/`error`/`message` payload fields). -/
structure JsonResponseRec where
  status : Nat
  success : Bool
  error : Option String := none
  message : Option String := none
deriving Repr, DecidableEq

/-- Replace the first agent whose id matches (the update loop with
`break`). -/
def replaceFirstAgent (agents : List AgentRec) (agent_id : String) (agent2 : AgentRec) :
    List AgentRec :=
  match agents with
  | [] => []
  | a :: rest =>
    if a.id == agent_id then agent2 :: rest
    else a :: replaceFirstAgent rest agent_id agent2

/-- `dict.update(assessment_results)` on the stored assessment: the four
block keys are always present in the results; a `blockN_state` key
overwrites only when echoed by `run_assessment_logic`. -/
def StoredAssessment.updateWith (a : StoredAssessment) (r : AssessmentResults) :
    StoredAssessment :=
  { block1 := some r.block1, block2 := some r.block2,
    block3 := some r.block3, block4 := some r.block4,
    block1_state := r.block1_state <|> a.block1_state,
    block2_state := r.block2_state <|> a.block2_state,
    block3_state := r.block3_state <|> a.block3_state,
    block4_state := r.block4_state <|> a.block4_state }

/-- `api_update_block1_state(request, agent_id)`.

Inputs: the result of loading `agents.json` (`.error` = the file existed
but could not be parsed), the addressed agent id, and the request body
(`none` = `json.loads(request.body)` raised `JSONDecodeError`).

Output: the HTTP response and the stored file content after the call
(the file is written only on the success path). -/
def api_update_block1_state (loaded : Except String (List AgentRec)) (agent_id : String)
    (body : Option Block1StateUpdate) :
    JsonResponseRec × Except String (List AgentRec) :=
  match loaded with
  | .error _ =>
    ({ status := 500, success := false, error := some "Could not load agents data" }, loaded)
  | .ok existing_agents =>
    match existing_agents.find? (fun a => a.id == agent_id) with
    | none =>
      ({ status := 404, success := false, error := some "AI System not found" }, loaded)
    | some agent =>
      match body with
      | none =>
        ({ status := 400, success := false, error := some "Invalid JSON in request body" },
         loaded)
      | some data =>
        let assessment0 : StoredAssessment := agent.assessment.getD {}
        let b1st0 : Block1State := assessment0.block1_state.getD {}
        let b1st := applyBlock1Update b1st0 data
        let assessment1 : StoredAssessment := { assessment0 with block1_state := some b1st }
        let assessment2 : StoredAssessment :=
          match agent.profile with
          | none => assessment1
          | some prof =>
            assessment1.updateWith (run_assessment_logic prof (some assessment1.toState) false)
        let agent2 : AgentRec := { agent with assessment := some assessment2 }
        let updated := replaceFirstAgent existing_agents agent_id agent2
        ({ status := 200, success := true, message := some "Block 1 state updated successfully" },
         .ok updated)

/-! Dashboard aggregation use case
(`application/use_cases/get_dashboard_data.py`). Only the integer
statistics of the DTO are modelled; the percentage and risk-score
fields are Python floats used for display only. -/

/-- The fields of the `UseCase` entity read by the dashboard use case.
`models`/`datasets` are id lists; `has_models`/`has_datasets` are the
entity properties `len(...) > 0`. -/
structure DashUseCase where
  id : Int
  review_status : String := "missing"
  compliance_assessed : Bool := false
  models : List Int := []
  datasets : List Int := []
deriving Repr, DecidableEq

def DashUseCase.has_models (uc : DashUseCase) : Bool := !uc.models.isEmpty

def DashUseCase.has_datasets (uc : DashUseCase) : Bool := !uc.datasets.isEmpty

/-- The field of the `Agent` entity read by the dashboard use case
(`compliance_status.value`). -/
structure DashAgent where
  compliance_status : String := "assessing"
deriving Repr, DecidableEq

/-- An evidence / evaluation-report dict (`e.get('use_case_id')`). -/
structure EvidenceItem where
  use_case_id : Option Int := none
deriving Repr, DecidableEq

/-- `DataCollectionProgressDTO` integer counts. -/
structure DataCollectionProgressDTO where
  completed : Nat
  in_progress : Nat
  not_started : Nat
deriving Repr, DecidableEq

/-- `DashboardDTO` integer statistics. -/
structure DashboardDTO where
  total_use_cases : Nat
  assessed_use_cases : Nat
  under_reviewed : Nat
  data_collection_completed : Nat
  data_collection_progress : DataCollectionProgressDTO
deriving Repr, DecidableEq

/-- One step of the counting loop of
`_calculate_data_collection_progress`. -/
def dataCollectionStep (evidences reports : List EvidenceItem)
    (acc : Nat × Nat × Nat) (uc : DashUseCase) : Nat × Nat × Nat :=
  let has_evidences := evidences.any (fun e => e.use_case_id == some uc.id)
  let has_reports := reports.any (fun r => r.use_case_id == some uc.id)
  if uc.has_models && uc.has_datasets && has_evidences && has_reports
      && uc.compliance_assessed then
    (acc.1 + 1, acc.2.1, acc.2.2)
  else if uc.has_models || uc.has_datasets || has_evidences || has_reports then
    (acc.1, acc.2.1 + 1, acc.2.2)
  else
    (acc.1, acc.2.1, acc.2.2 + 1)

/-- `GetDashboardDataUseCase._calculate_data_collection_progress`. -/
def calculate_data_collection_progress (use_cases : List DashUseCase)
    (evidences reports : List EvidenceItem) : DataCollectionProgressDTO :=
  let t := use_cases.foldl (dataCollectionStep evidences reports) (0, 0, 0)
  { completed := t.1, in_progress := t.2.1, not_started := t.2.2 }

/-- `GetDashboardDataUseCase.execute`, with the repositories modelled by
the lists they return (`get_all()` for use cases and agents,
`get_by_use_case_id(None)` for evidences and reports). -/
def getDashboardDataExecute (use_cases : List DashUseCase) (agents : List DashAgent)
    (evidences reports : List EvidenceItem) : DashboardDTO :=
  let total_use_cases := use_cases.length
  let assessed_use_cases := use_cases.countP (fun uc => uc.compliance_assessed)
  let under_reviewed :=
    use_cases.countP (fun uc => uc.review_status == "partial" || uc.review_status == "complete")
    + agents.countP (fun a => a.compliance_status == "reviewing")
  let data_collection_completed := evidences.length + reports.length
  { total_use_cases, assessed_use_cases, under_reviewed, data_collection_completed
    data_collection_progress := calculate_data_collection_progress use_cases evidences reports }

/-! Dependency-injection container
(`presentation/dependency_injection.py`). -/

structure MockAgentRepository where
  data_dir : String
deriving Repr, DecidableEq

structure MockUseCaseRepository where
  data_dir : String
deriving Repr, DecidableEq

structure MockModelRepository where
  data_dir : String
deriving Repr, DecidableEq

structure MockDatasetRepository where
  data_dir : String
deriving Repr, DecidableEq

structure MockEvidenceRepository where
  data_dir : String
deriving Repr, DecidableEq

structure MockEvaluationReportRepository where
  data_dir : String
deriving Repr, DecidableEq

structure MockReviewCommentRepository where
  data_dir : String
deriving Repr, DecidableEq

/-- Common view of the mock repository instances held by the
container. -/
inductive MockRepository where
  | agentRepo (r : MockAgentRepository)
  | useCaseRepo (r : MockUseCaseRepository)
  | modelRepo (r : MockModelRepository)
  | datasetRepo (r : MockDatasetRepository)
  | evidenceRepo (r : MockEvidenceRepository)
  | evaluationReportRepo (r : MockEvaluationReportRepository)
  | reviewCommentRepo (r : MockReviewCommentRepository)
deriving Repr, DecidableEq

/-- `DependencyContainer` with the repository instances created by
`__init__` (the use-case objects it also builds just hold references to
these repositories). -/
structure DependencyContainer where
  base_dir : String
  data_dir : String
  agent_repository : MockAgentRepository
  use_case_repository : MockUseCaseRepository
  model_repository : MockModelRepository
  dataset_repository : MockDatasetRepository
  evidence_repository : MockEvidenceRepository
  evaluation_report_repository : MockEvaluationReportRepository
  review_comment_repository : MockReviewCommentRepository
deriving Repr, DecidableEq

/-- `DependencyContainer.__init__(base_dir)`: one mock repository
instance per `Mock*Repository(...)` call in the constructor. -/
def mkDependencyContainer (base_dir : String) : DependencyContainer :=
  let data_dir := base_dir ++ "/mock_data"
  { base_dir, data_dir
    agent_repository := ⟨data_dir⟩
    use_case_repository := ⟨data_dir⟩
    model_repository := ⟨data_dir⟩
    dataset_repository := ⟨data_dir⟩
    evidence_repository := ⟨data_dir⟩
    evaluation_report_repository := ⟨data_dir⟩
    review_comment_repository := ⟨data_dir⟩ }

/-- The mock repository instances a constructed container holds, in
initialisation order. -/
def DependencyContainer.mockRepositories (c : DependencyContainer) : List MockRepository :=
  [.agentRepo c.agent_repository, .useCaseRepo c.use_case_repository,
   .modelRepo c.model_repository, .datasetRepo c.dataset_repository,
   .evidenceRepo c.evidence_repository,
   .evaluationReportRepo c.evaluation_report_repository,
   .reviewCommentRepo c.review_comment_repository]

/-! Theorems about the claims. -/

/-- C1: for every profile_data and every assessment_state (including
None), `run_assessment_logic` returns a dictionary with the four keys
block1..block4, each holding a dict with a status field, where block1 is
the Block 1 prohibited-practice screening result, block2 the high-risk
classification result, block3 the transparency-obligation result and
block4 the GPAI-applicability result. -/
theorem run_assessment_logic_four_blocks (p : Profile) (st : Option AssessmentState)
    (reset : Bool) :
    (run_assessment_logic p st reset).statusOf "block1"
        = some (get_block1_status p (st.getD {}).block1_state reset).status
    ∧ (run_assessment_logic p st reset).statusOf "block2"
        = some (get_block2_status p
            (some (get_block1_status p (st.getD {}).block1_state reset))
            (st.getD {}).block2_state).status
    ∧ (run_assessment_logic p st reset).statusOf "block3"
        = some (get_block3_status p
            (some (get_block1_status p (st.getD {}).block1_state reset))
            (st.getD {}).block3_state).status
    ∧ (run_assessment_logic p st reset).statusOf "block4"
        = some (get_block4_status p
            (some (get_block1_status p (st.getD {}).block1_state reset))
            (st.getD {}).block4_state).status :=
  ⟨rfl, rfl, rfl, rfl⟩

/-- C5: whenever the Block 1 result computed by `get_block1_status` has
status Prohibited, `run_assessment_logic` reports both block3 and block4
as De-activated, whatever the profile answers and block3/block4
states. -/
theorem run_assessment_logic_prohibited_deactivates (p : Profile)
    (st : Option AssessmentState) (reset : Bool)
    (h : (get_block1_status p (st.getD {}).block1_state reset).status = "Prohibited") :
    (run_assessment_logic p st reset).block3.status = "De-activated"
    ∧ (run_assessment_logic p st reset).block4.status = "De-activated" := by
  have hb : block1Prohibited
      (some (get_block1_status p (st.getD {}).block1_state reset)) = true := by
    simp [block1Prohibited, h]
  constructor
  · show (get_block3_status p
      (some (get_block1_status p (st.getD {}).block1_state reset))
      (st.getD {}).block3_state).status = "De-activated"
    simp [get_block3_status, hb]
  · show (get_block4_status p
      (some (get_block1_status p (st.getD {}).block1_state reset))
      (st.getD {}).block4_state).status = "De-activated"
    simp [get_block4_status, hb]

/-- Witness for C5 at a concrete input: one selected practice without an
Art. 5 exception, confirmed by the user. -/
theorem run_assessment_logic_prohibited_deactivates_witness :
    (run_assessment_logic
        { capability_practices := .ofList
            ["Social scoring leading to detrimental / unfavourable treatment (esp. unjustified / disproportionate)"] }
        (some { block1_state := some { prohibited_confirmed := true } }) false).block3.status
      = "De-activated"
    ∧ (run_assessment_logic
        { capability_practices := .ofList
            ["Social scoring leading to detrimental / unfavourable treatment (esp. unjustified / disproportionate)"] }
        (some { block1_state := some { prohibited_confirmed := true } }) false).block4.status
      = "De-activated" :=
  run_assessment_logic_prohibited_deactivates
    { capability_practices := .ofList
        ["Social scoring leading to detrimental / unfavourable treatment (esp. unjustified / disproportionate)"] }
    (some { block1_state := some { prohibited_confirmed := true } }) false (by decide)

/-- C6: the assessment engine is deterministic: two calls of
`run_assessment_logic` on equal profile data, assessment state and
reset flag return equal results, and the two AI-detection helpers are
constant (no randomness). -/
theorem run_assessment_logic_deterministic (p p2 : Profile)
    (s s2 : Option AssessmentState) (r r2 : Bool)
    (hp : p = p2) (hs : s = s2) (hr : r = r2) :
    ai_detects_prohibited_practice = false
    ∧ ai_detects_high_risk = false
    ∧ run_assessment_logic p s r = run_assessment_logic p2 s2 r2 := by
  subst hp; subst hs; subst hr
  exact ⟨rfl, rfl, rfl⟩

/-- Witness for C6 at a concrete input. -/
theorem run_assessment_logic_deterministic_witness :
    ai_detects_prohibited_practice = false
    ∧ ai_detects_high_risk = false
    ∧ run_assessment_logic {} none false = run_assessment_logic {} none false :=
  run_assessment_logic_deterministic {} {} none none false false rfl rfl rfl

/-- Helper for C8: the counting loop adds exactly one to one of the
three counters per use case. -/
theorem dataCollection_foldl_sum (evs rps : List EvidenceItem) (l : List DashUseCase)
    (acc : Nat × Nat × Nat) :
    (l.foldl (dataCollectionStep evs rps) acc).1
      + (l.foldl (dataCollectionStep evs rps) acc).2.1
      + (l.foldl (dataCollectionStep evs rps) acc).2.2
    = acc.1 + acc.2.1 + acc.2.2 + l.length := by
  induction l generalizing acc with
  | nil => simp
  | cons uc rest ih =>
    rw [List.foldl_cons, ih]
    unfold dataCollectionStep
    dsimp only
    split_ifs <;> simp <;> omega

/-- C8: in the DashboardDTO built by the dashboard use case, the data
collection progress counters partition the use cases:
completed + in_progress + not_started = total_use_cases = number of use
cases returned by the use-case repository. -/
theorem dashboard_data_collection_partition (ucs : List DashUseCase)
    (ags : List DashAgent) (evs rps : List EvidenceItem) :
    (getDashboardDataExecute ucs ags evs rps).data_collection_progress.completed
      + (getDashboardDataExecute ucs ags evs rps).data_collection_progress.in_progress
      + (getDashboardDataExecute ucs ags evs rps).data_collection_progress.not_started
      = (getDashboardDataExecute ucs ags evs rps).total_use_cases
    ∧ (getDashboardDataExecute ucs ags evs rps).total_use_cases = ucs.length := by
  refine ⟨?_, rfl⟩
  have h := dataCollection_foldl_sum evs rps ucs (0, 0, 0)
  simpa [getDashboardDataExecute, calculate_data_collection_progress] using h

/-- C9 counterexample: constructing the container at a concrete base
directory initialises seven mock repository instances, not four. -/
theorem mkDependencyContainer_not_four_mocks :
    ¬ ((mkDependencyContainer "").mockRepositories.length = 4) := by decide

/-- C9 amended: for every base directory, constructing
DependencyContainer initialises seven mock repository instances. -/
theorem mkDependencyContainer_seven_mocks (base_dir : String) :
    (mkDependencyContainer base_dir).mockRepositories.length = 7 := rfl

/-- C2: if at least one selected practice other than "None of the
above" has no Art. 5 exception available and the user has confirmed,
Block 1 reports Prohibited regardless of any exception claim or
evidence in the state. -/
theorem get_block1_status_no_exception_prohibited (p : Profile) (st : Block1State)
    (pr : String)
    (hmem : pr ∈ p.capability_practices.toList)
    (hne : pr ≠ "None of the above")
    (hnoexc : practiceHasException pr = false)
    (hconf : st.prohibited_confirmed = true) :
    (get_block1_status p (some st) false).status = "Prohibited" := by
  have h0 : (p.capability_practices.toList.length == 0) = false := by
    simp [List.length_eq_zero, List.ne_nil_of_mem hmem]
  have h1 : ¬("None of the above" ∈ p.capability_practices.toList
      ∧ p.capability_practices.toList.length = 1) := by
    rintro ⟨hmemN, hlen⟩
    obtain ⟨x, hx⟩ := List.length_eq_one.mp hlen
    rw [hx] at hmem hmemN
    simp only [List.mem_singleton] at hmem hmemN
    exact hne (hmem.trans hmemN.symm)
  have h2 : (p.capability_practices.toList.filter
      (fun q => q != "None of the above")).isEmpty = false := by
    have hmemf : pr ∈ p.capability_practices.toList.filter
        (fun q => q != "None of the above") := by
      refine List.mem_filter.mpr ⟨hmem, ?_⟩
      simp [hne]
    simp [List.isEmpty_iff_eq_nil, List.ne_nil_of_mem hmemf]
  have h4 : (p.capability_practices.toList.filter
      (fun q => q != "None of the above")).any (fun q => !practiceHasException q) = true := by
    rw [List.any_eq_true]
    refine ⟨pr, ?_, ?_⟩
    · refine List.mem_filter.mpr ⟨hmem, ?_⟩
      simp [hne]
    · simp [hnoexc]
  simp [get_block1_status, h0, h1, h2, h4, hconf]

/-- Witness for C2 at a concrete input: social scoring selected and
confirmed, with an exception claim and evidence recorded anyway. -/
theorem get_block1_status_no_exception_prohibited_witness :
    (get_block1_status
        { capability_practices := .ofList
            ["Social scoring leading to detrimental / unfavourable treatment (esp. unjustified / disproportionate)"] }
        (some { prohibited_confirmed := true, claiming_exception := "Yes",
                exception_evidence_uploaded := true,
                exception_evidence_saved_link := "https://example.org/evidence" })
        false).status = "Prohibited" :=
  get_block1_status_no_exception_prohibited
    { capability_practices := .ofList
        ["Social scoring leading to detrimental / unfavourable treatment (esp. unjustified / disproportionate)"] }
    { prohibited_confirmed := true, claiming_exception := "Yes",
      exception_evidence_uploaded := true,
      exception_evidence_saved_link := "https://example.org/evidence" }
    "Social scoring leading to detrimental / unfavourable treatment (esp. unjustified / disproportionate)"
    (by decide) (by decide) (by decide) rfl

/-- C3: Block 4 reports Applies exactly when Block 1 is not Prohibited,
the profile answers gpai_integration = Yes, and the state has
gpai_confirmed with provider answer Yes; in every other case the status
is one of De-activated, Not assessed, Needs Review, Triggered or Not
Applicable. -/
theorem get_block4_status_applies_iff (p : Profile) (b1 : Block1Result)
    (st : Block4State) :
    ((get_block4_status p (some b1) (some st)).status = "Applies" ↔
      (b1.status ≠ "Prohibited" ∧ p.gpai_integration = "Yes"
        ∧ st.gpai_confirmed = true ∧ st.gpai_provider_answer = "Yes"))
    ∧ (get_block4_status p (some b1) (some st)).status
        ∈ ["Applies", "De-activated", "Not assessed", "Needs Review", "Triggered",
           "Not Applicable"] := by
  by_cases hb : b1.status = "Prohibited"
  · constructor
    · simp [get_block4_status, block1Prohibited, hb]
    · simp [get_block4_status, block1Prohibited, hb]
  · have hbeq : (b1.status == "Prohibited") = false := by simp [hb]
    by_cases hg1 : p.gpai_integration = ""
    · constructor
      · simp [get_block4_status, block1Prohibited, hbeq, hg1]
      · simp [get_block4_status, block1Prohibited, hbeq, hg1]
    · by_cases hg2 : p.gpai_integration = "No"
      · constructor
        · simp [get_block4_status, block1Prohibited, hbeq, hg1, hg2]
        · simp [get_block4_status, block1Prohibited, hbeq, hg1, hg2]
      · by_cases hg3 : p.gpai_integration = "Unknown"
        · rcases hcf : st.gpai_confirmed with _ | _ <;> constructor <;>
            simp [get_block4_status, block1Prohibited, hbeq, hg1, hg2, hg3, hcf]
        · by_cases hg4 : p.gpai_integration = "Yes"
          · rcases hcf : st.gpai_confirmed with _ | _
            · constructor <;>
                simp [get_block4_status, block1Prohibited, hbeq, hg1, hg2, hg3, hg4, hcf]
            · by_cases ha1 : st.gpai_provider_answer = ""
              · constructor <;>
                  simp [get_block4_status, block1Prohibited, hbeq, hg1, hg2, hg3, hg4,
                    hcf, ha1]
              · by_cases ha2 : st.gpai_provider_answer = "No"
                · constructor <;>
                    simp [get_block4_status, block1Prohibited, hbeq, hg1, hg2, hg3, hg4,
                      hcf, ha1, ha2]
                · by_cases ha3 : st.gpai_provider_answer = "Not sure"
                  · constructor <;>
                      simp [get_block4_status, block1Prohibited, hbeq, hg1, hg2, hg3, hg4,
                        hcf, ha1, ha2, ha3]
                  · by_cases ha4 : st.gpai_provider_answer = "Yes"
                    · constructor <;>
                        simp [get_block4_status, block1Prohibited, hbeq, hg1, hg2, hg3,
                          hg4, hcf, ha1, ha2, ha3, ha4, hb]
                    · constructor <;>
                        simp [get_block4_status, block1Prohibited, hbeq, hg1, hg2, hg3,
                          hg4, hcf, ha1, ha2, ha3, ha4]
          · constructor <;>
              simp [get_block4_status, block1Prohibited, hbeq, hg1, hg2, hg3, hg4]

/-- C4: when Block 1 is not Prohibited, a listed sector is selected,
the safety-component question is not left half-answered, and the user
has confirmed high-risk with Annex III Q1 material influence answered
Yes, Block 2 reports Not high-risk. -/
theorem get_block2_status_material_influence_not_high_risk (p : Profile)
    (b1 : Block1Result) (st : Block2State)
    (h1 : b1.status ≠ "Prohibited")
    (hs : ∃ s ∈ p.intended_purpose.sector_domain.toList,
      s ≠ "Other / not listed" ∧ s ≠ "Other / not listed:" ∧ s ≠ "")
    (h3 : ¬(p.intended_purpose.safety_component = "Yes"
        ∧ p.intended_purpose.third_party_conformity = ""))
    (hc : st.high_risk_confirmed = true)
    (hm : st.material_influence = "Yes") :
    (get_block2_status p (some b1) (some st)).status = "Not high-risk" := by
  obtain ⟨s0, hs0mem, hs01, hs02, hs03⟩ := hs
  have hb1 : (b1.status == "Prohibited") = false := by simp [h1]
  have hsec : p.intended_purpose.sector_domain.toList.isEmpty = false := by
    simp [List.isEmpty_iff_eq_nil, List.ne_nil_of_mem hs0mem]
  have hcond2 : (p.intended_purpose.sector_domain.toList.any fun s =>
      !(s == "Other / not listed" || s == "Other / not listed:" || s == "")) = true := by
    rw [List.any_eq_true]
    exact ⟨s0, hs0mem, by simp [hs01, hs02, hs03]⟩
  have hsafety : (p.intended_purpose.safety_component == "Yes"
      && (p.intended_purpose.third_party_conformity == "")) = false := by
    by_cases hsc : p.intended_purpose.safety_component = "Yes"
    · have htpc : p.intended_purpose.third_party_conformity ≠ "" :=
        fun hh => h3 ⟨hsc, hh⟩
      simp [htpc]
    · simp [hsc]
  have hcond2p : ¬(∀ x ∈ p.intended_purpose.sector_domain.toList,
      ¬x = "Other / not listed" → ¬x = "Other / not listed:" → x = "") :=
    fun hall => hs03 (hall s0 hs0mem hs01 hs02)
  simp [get_block2_status, ai_detects_high_risk, block1Prohibited, hb1, hsec,
    hcond2, hcond2p, hsafety, hc, hm]

/-- Witness for C4 at a concrete input: employment sector selected,
high-risk confirmed, material influence answered Yes. -/
theorem get_block2_status_material_influence_witness :
    (get_block2_status
        { intended_purpose := { sector_domain := .ofList ["Employment"] } }
        (some { status := "PASS", selected_practices := [], reason := "" })
        (some { high_risk_confirmed := true, material_influence := "Yes" })).status
      = "Not high-risk" :=
  get_block2_status_material_influence_not_high_risk
    { intended_purpose := { sector_domain := .ofList ["Employment"] } }
    { status := "PASS", selected_practices := [], reason := "" }
    { high_risk_confirmed := true, material_influence := "Yes" }
    (by decide) ⟨"Employment", by decide, by decide, by decide, by decide⟩
    (by decide) rfl rfl

set_option maxHeartbeats 1600000 in
/-- Helper for C10: the status is Not assessed exactly for an
effectively empty capability_practices answer. -/
theorem block1_not_assessed_aux (p : Profile) (st : Option Block1State) (r : Bool) :
    ((get_block1_status p st r).status = "Not assessed")
      ↔ p.capability_practices.toList = [] := by
  by_cases hl : p.capability_practices.toList = []
  · simp [get_block1_status, hl]
  · have hns : ¬((get_block1_status p st r).status = "Not assessed") := by
      have h0 : (p.capability_practices.toList.length == 0) = false := by
        simp [List.length_eq_zero, hl]
      unfold get_block1_status
      simp only [h0, Bool.false_eq_true, if_false]
      generalize (if r = true then ({} : Block1State) else st.getD {}) = s1
      split_ifs <;> simp
    simp [hns, hl]

/-- C10: Block 1 reports Not assessed exactly when the
capability_practices answer is missing, an empty list, or not a list at
all (the non-list case normalises to an unanswered question instead of
raising); every answered profile yields one of the other statuses. -/
theorem get_block1_status_not_assessed_iff (p : Profile) (st : Option Block1State)
    (r : Bool) (raw : String) :
    (((get_block1_status p st r).status = "Not assessed")
      ↔ p.capability_practices.toList = [])
    ∧ (get_block1_status { p with capability_practices := .notAList raw } st r).status
        = "Not assessed" :=
  ⟨block1_not_assessed_aux p st r,
   (block1_not_assessed_aux { p with capability_practices := .notAList raw } st r).mpr rfl⟩

/-- C7: a POST to `api_update_block1_state` whose body is not valid
JSON, when the agents file loads and the addressed agent exists, yields
the 400 "Invalid JSON in request body" error response and leaves the
stored agents.json content untouched (the write only happens after the
body parses). -/
theorem api_update_block1_state_invalid_json (agents : List AgentRec) (agent_id : String)
    (hfound : (agents.find? (fun a => a.id == agent_id)).isSome = true) :
    api_update_block1_state (.ok agents) agent_id none =
      ({ status := 400, success := false, error := some "Invalid JSON in request body",
         message := none }, .ok agents) := by
  obtain ⟨a, ha⟩ := Option.isSome_iff_exists.mp hfound
  unfold api_update_block1_state
  simp only [ha]

/-- Witness for C7 at a concrete input: one stored agent, addressed by
its id, with an unparsable request body. -/
theorem api_update_block1_state_invalid_json_witness :
    api_update_block1_state (.ok [{ id := "1" }]) "1" none =
      ({ status := 400, success := false, error := some "Invalid JSON in request body",
         message := none }, .ok [{ id := "1" }]) :=
  api_update_block1_state_invalid_json [{ id := "1" }] "1" rfl

end Governance



